import Mathlib

/-!
Verification of the Chatterbox TTS API server (src/api/api_server.py,
src/api/config.py) against its natural-language specification.

The server is shallowly embedded: model instances are abstract handles
(natural-number ids minted by a counter), the `ModelManager` global is a
record threaded through each endpoint, Python exceptions are an explicit
`Exc` type, and each FastAPI endpoint handler is a Lean function from its
inputs and the manager state to the HTTP response, the new manager state,
and a record of the `model.generate` invocation (if any).  Fallible
external calls (`from_pretrained`, reading the uploaded voice file, the
synthesis call itself) are parametrised by an `Except String Unit`
outcome supplied by the environment.
-/

/-- The three model variants, i.e. the values admitted by the pydantic
`Literal["turbo", "multilingual", "original"]` schema field and by the
if/elif chains in the endpoint handlers. -/
inductive ModelType where
  | turbo
  | multilingual
  | original
  deriving DecidableEq, Repr

/-- Mapping from a raw `model_type` string to a variant.  This captures
both the pydantic `Literal` schema validation of `TTSRequest.model_type`
(api_server.py lines 117-120) and the if/elif chain of
`generate_tts_with_voice` (lines 364-371): both admit exactly the
strings "turbo", "multilingual", "original". -/
def parse_model_type : String → Option ModelType
  | "turbo" => some ModelType.turbo
  | "multilingual" => some ModelType.multilingual
  | "original" => some ModelType.original
  | _ => none

/-- The `ModelManager` global (api_server.py lines 70-112).  Each
`*_model` field is `None` or a loaded model handle; handles are abstract
ids minted from `nextId`.  `constructions` counts how many times
`from_pretrained` has been invoked, so that "no re-construction" claims
are expressible. -/
structure ModelManager where
  turbo_model : Option Nat
  multilingual_model : Option Nat
  original_model : Option Nat
  nextId : Nat
  constructions : Nat
  deriving DecidableEq, Repr

/-- The manager state at process start: `__init__` sets every model slot
to `None` (lines 71-75). -/
def ModelManager.init : ModelManager :=
  { turbo_model := none, multilingual_model := none, original_model := none
    nextId := 0, constructions := 0 }

/-- Read the registry slot of a variant. -/
def slotOf : ModelType → ModelManager → Option Nat
  | ModelType.turbo, s => s.turbo_model
  | ModelType.multilingual, s => s.multilingual_model
  | ModelType.original, s => s.original_model

/-- Write the registry slot of a variant. -/
def setSlot : ModelType → Nat → ModelManager → ModelManager
  | ModelType.turbo, m, s => { s with turbo_model := some m }
  | ModelType.multilingual, m, s => { s with multilingual_model := some m }
  | ModelType.original, m, s => { s with original_model := some m }

/-- `ModelManager.load_turbo` / `load_multilingual` / `load_original`
(api_server.py lines 88-110), one definition for the three structurally
identical accessors: if the slot is `None`, call `from_pretrained`
(outcome supplied by `outcome`: on success a fresh handle is minted and
stored, on failure the exception message propagates and — since the
assignment never executes — the slot stays `None`); otherwise return the
cached handle with the state untouched. -/
def load_variant (outcome : Except String Unit) (v : ModelType) (s : ModelManager) :
    Except String (Nat × ModelManager) :=
  match slotOf v s with
  | some m => Except.ok (m, s)
  | none =>
    match outcome with
    | Except.error msg => Except.error msg
    | Except.ok _ =>
        Except.ok (s.nextId,
          setSlot v s.nextId
            { s with nextId := s.nextId + 1, constructions := s.constructions + 1 })

/-- Python truthiness of an `Optional[str]`: `None` and `""` are falsy,
every other string is truthy.  Used by `if settings.device:` (line 79)
and `... and request.language_id:` (lines 231, 383). -/
def pyTruthy : Option String → Bool
  | none => false
  | some s => s != ""

/-- An exception live inside an endpoint handler: either a fastapi
`HTTPException(status_code, detail)` raised explicitly, or an ordinary
exception (from `from_pretrained`, `model.generate`, reading the
upload, ...) carrying its message. -/
inductive Exc where
  | http (status : Nat) (detail : String)
  | engine (msg : String)
  deriving DecidableEq, Repr

/-- Rendering of `str(e)` for an exception: starlette defines
`HTTPException.__str__` as `f"{status_code}: {detail}"`; for ordinary
exceptions it is the message. -/
def excMessage : Exc → String
  | Exc.http status detail => toString status ++ ": " ++ detail
  | Exc.engine msg => msg

/-- An HTTP response from an endpoint: a successful `StreamingResponse`
of `audio/wav` bytes with a `Content-Disposition: attachment` filename,
or an error response with a status code and a detail message. -/
inductive Response where
  | audio (filename : String)
  | error (status : Nat) (detail : String)
  deriving DecidableEq, Repr

/-- The `except Exception as e: raise HTTPException(status_code=500,
detail=str(e))` blanket handler wrapping every endpoint body
(api_server.py lines 251-253, 283-285, 316-318, 347-349, 408-410).
Note that fastapi's `HTTPException` is itself an `Exception`, so an
explicitly raised 4xx from inside the `try` block is caught here and
re-surfaced as a 500 whose detail is `str(e)`. -/
def catchAll : Except Exc Response → Response
  | Except.ok resp => resp
  | Except.error e => Response.error 500 (excMessage e)

/-- A record of one `model.generate(...)` invocation: the model handle
it was called on, the positional `text`, and the keyword arguments
`language_id` and `audio_prompt_path` if and only if they were passed. -/
structure GenCall where
  model : Nat
  text : String
  language_id : Option String
  audio_prompt_path : Option String
  deriving DecidableEq, Repr

/-- The body of `TTSRequest` (api_server.py lines 115-124) after schema
validation: `model_type` has already been checked against the
`Literal`, `language_id` is optional. -/
structure TTSRequest where
  text : String
  model_type : ModelType
  language_id : Option String
  deriving DecidableEq, Repr

/-- The default `max_text_length` (config.py line 30). -/
def default_max_text_length : Nat := 5000

/-- The detail of the length-validation rejection (api_server.py line
216): `f"Text too long. Maximum length is {settings.max_text_length}
characters."`. -/
def text_too_long_detail (maxLen : Nat) : String :=
  "Text too long. Maximum length is " ++ toString maxLen ++ " characters."

/-- The `generate_tts` handler for `POST /tts` (api_server.py lines
202-253).  Inside the `try`: reject text longer than
`settings.max_text_length` by raising `HTTPException(400, ...)`; load
the requested variant; call `model.generate`, passing `language_id`
exactly when the variant is multilingual and `request.language_id` is
truthy; on success answer with an `audio/wav` stream whose
`Content-Disposition` filename is `output.wav`.  Every exception —
including the explicitly raised 400 — is caught by the blanket handler
and surfaced as a 500.  Returns (response, new manager state, the
`generate` invocation if one happened). -/
def generate_tts (maxLen : Nat) (loadOutcome genOutcome : Except String Unit)
    (req : TTSRequest) (s : ModelManager) :
    Response × ModelManager × Option GenCall :=
  if req.text.length > maxLen then
    (catchAll (Except.error (Exc.http 400 (text_too_long_detail maxLen))), s, none)
  else
    match load_variant loadOutcome req.model_type s with
    | Except.error msg => (catchAll (Except.error (Exc.engine msg)), s, none)
    | Except.ok (m, s1) =>
      let call : GenCall :=
        if req.model_type = ModelType.multilingual ∧ pyTruthy req.language_id = true then
          { model := m, text := req.text, language_id := req.language_id
            audio_prompt_path := none }
        else
          { model := m, text := req.text, language_id := none
            audio_prompt_path := none }
      match genOutcome with
      | Except.error msg => (catchAll (Except.error (Exc.engine msg)), s1, some call)
      | Except.ok _ => (Response.audio "output.wav", s1, some call)

/-- The `POST /tts` endpoint including the pydantic schema layer: a raw
`model_type` string outside the `Literal` set is rejected by request
validation with HTTP 422 before the handler body (and hence the
dispatcher, the registry, or any model) is reached. -/
def tts_endpoint (maxLen : Nat) (loadOutcome genOutcome : Except String Unit)
    (text : String) (model_type_field : String) (language_id : Option String)
    (s : ModelManager) : Response × ModelManager × Option GenCall :=
  match parse_model_type model_type_field with
  | none => (Response.error 422 "Input should be turbo, multilingual or original", s, none)
  | some mt =>
      generate_tts maxLen loadOutcome genOutcome
        { text := text, model_type := mt, language_id := language_id } s

/-- The `generate_tts_turbo` handler for `POST /tts/turbo` (lines
255-285): no text-length validation; loads the turbo model, calls
`generate(text)`, and on success answers with filename
`turbo_output.wav`. -/
def generate_tts_turbo (loadOutcome genOutcome : Except String Unit)
    (text : String) (s : ModelManager) :
    Response × ModelManager × Option GenCall :=
  match load_variant loadOutcome ModelType.turbo s with
  | Except.error msg => (catchAll (Except.error (Exc.engine msg)), s, none)
  | Except.ok (m, s1) =>
    let call : GenCall :=
      { model := m, text := text, language_id := none, audio_prompt_path := none }
    match genOutcome with
    | Except.error msg => (catchAll (Except.error (Exc.engine msg)), s1, some call)
    | Except.ok _ => (Response.audio "turbo_output.wav", s1, some call)

/-- The form-parameter default of `generate_tts_multilingual`:
`language_id: str = Form("en")`, i.e. the handler receives `"en"` when
the form field is omitted, and the field's literal value (including
`""`) when it is present. -/
def multilingual_form_language : Option String → String
  | none => "en"
  | some v => v

/-- The `generate_tts_multilingual` handler for `POST /tts/multilingual`
(lines 287-318): no text-length validation; loads the multilingual
model and always calls `generate(text, language_id=language_id)`; on
success the filename is `multilingual_{language_id}_output.wav`. -/
def generate_tts_multilingual (loadOutcome genOutcome : Except String Unit)
    (text : String) (language_id : String) (s : ModelManager) :
    Response × ModelManager × Option GenCall :=
  match load_variant loadOutcome ModelType.multilingual s with
  | Except.error msg => (catchAll (Except.error (Exc.engine msg)), s, none)
  | Except.ok (m, s1) =>
    let call : GenCall :=
      { model := m, text := text, language_id := some language_id
        audio_prompt_path := none }
    match genOutcome with
    | Except.error msg => (catchAll (Except.error (Exc.engine msg)), s1, some call)
    | Except.ok _ =>
        (Response.audio ("multilingual_" ++ language_id ++ "_output.wav"), s1, some call)

/-- The `generate_tts_original` handler for `POST /tts/original` (lines
320-349): no text-length validation; loads the original model, calls
`generate(text)`, and on success answers with filename
`original_output.wav`. -/
def generate_tts_original (loadOutcome genOutcome : Except String Unit)
    (text : String) (s : ModelManager) :
    Response × ModelManager × Option GenCall :=
  match load_variant loadOutcome ModelType.original s with
  | Except.error msg => (catchAll (Except.error (Exc.engine msg)), s, none)
  | Except.ok (m, s1) =>
    let call : GenCall :=
      { model := m, text := text, language_id := none, audio_prompt_path := none }
    match genOutcome with
    | Except.error msg => (catchAll (Except.error (Exc.engine msg)), s1, some call)
    | Except.ok _ => (Response.audio "original_output.wav", s1, some call)

/-- The path of the `tempfile.NamedTemporaryFile(delete=False,
suffix=".wav")` staged by `generate_tts_with_voice`. -/
def tmp_ref_path : String := "reference_upload.wav"

/-- The `generate_tts_with_voice` handler for `POST /tts/with-voice`
(lines 351-410).  The third component of the result records whether the
staged temporary file is still present on the filesystem after the
request completes.  Order of operations, as in the source: resolve
`model_type` (free-form string; unknown value raises
`HTTPException(400, "Invalid model_type")`, which the blanket handler
re-surfaces as 500); load the model; enter the `with
tempfile.NamedTemporaryFile(delete=False)` block, which creates the
file on entry, then reads the upload and writes it (`readOutcome`: a
failure here — e.g. a dropped client connection — propagates while the
file already exists and before the `try`/`finally` that deletes it, so
the file is left behind); then the inner `try`: call `generate` with
`audio_prompt_path=tmp_path`, passing `language_id` exactly when
`model_type == "multilingual"` and `language_id` is truthy; the
`finally` unlinks the temporary file whether `generate` succeeded or
raised.  Success answers with filename
`{model_type}_custom_voice_output.wav`. -/
def generate_tts_with_voice (loadOutcome readOutcome genOutcome : Except String Unit)
    (text : String) (model_type : String) (language_id : Option String)
    (s : ModelManager) :
    Response × ModelManager × Bool × Option GenCall :=
  match parse_model_type model_type with
  | none =>
      (catchAll (Except.error (Exc.http 400 "Invalid model_type")), s, false, none)
  | some v =>
    match load_variant loadOutcome v s with
    | Except.error msg => (catchAll (Except.error (Exc.engine msg)), s, false, none)
    | Except.ok (m, s1) =>
      match readOutcome with
      | Except.error msg =>
          (catchAll (Except.error (Exc.engine msg)), s1, true, none)
      | Except.ok _ =>
        let call : GenCall :=
          if model_type = "multilingual" ∧ pyTruthy language_id = true then
            { model := m, text := text, language_id := language_id
              audio_prompt_path := some tmp_ref_path }
          else
            { model := m, text := text, language_id := none
              audio_prompt_path := some tmp_ref_path }
        match genOutcome with
        | Except.error msg =>
            (catchAll (Except.error (Exc.engine msg)), s1, false, some call)
        | Except.ok _ =>
            (Response.audio (model_type ++ "_custom_voice_output.wav"), s1, false, some call)

/-- `ModelManager._get_device` (api_server.py lines 77-86) with the
configuration value `settings.device : Optional[str]` (config.py line
34) and the two availability probes as inputs: `if settings.device:`
returns the preference when it is truthy (a non-empty string); else
probe `torch.cuda.is_available()`, then `torch.backends.mps.
is_available()`, else fall back to `"cpu"`. -/
def select_device (pref : Option String) (cudaAvail mpsAvail : Bool) : String :=
  match pref with
  | some p =>
      if p ≠ "" then p
      else if cudaAvail then "cuda" else if mpsAvail then "mps" else "cpu"
  | none =>
      if cudaAvail then "cuda" else if mpsAvail then "mps" else "cpu"

/-! ### An interleaving model of two concurrent first-time loads

`load_turbo` (api_server.py lines 88-94) runs the check `if
self.turbo_model is None:` and the assignment `self.turbo_model =
ChatterboxTurboTTS.from_pretrained(...)` as two separate statements
with no lock anywhere in `ModelManager`.  `RaceState` gives each of two
tasks A and B a program counter over that two-statement body; a
schedule is a list of booleans choosing which task executes its next
statement. -/

/-- Shared registry slot plus the local control state of two tasks each
executing the body of `load_turbo`. -/
structure RaceState where
  slot : Option Nat
  constructions : Nat
  nextId : Nat
  pcA : Nat
  sawNoneA : Bool
  pcB : Nat
  sawNoneB : Bool
  deriving DecidableEq, Repr

/-- Both tasks at the `is None` check, slot empty. -/
def raceInit : RaceState :=
  { slot := none, constructions := 0, nextId := 0
    pcA := 0, sawNoneA := false, pcB := 0, sawNoneB := false }

/-- One statement of one task: at pc 0 the task evaluates `slot is
None`; at pc 1 it runs `from_pretrained` and assigns the slot if the
check saw `None`, else it skips straight to returning the cached
handle.  There is no mutual exclusion between the two statements. -/
def raceStep (taskA : Bool) (st : RaceState) : RaceState :=
  if taskA then
    match st.pcA with
    | 0 => { st with sawNoneA := st.slot.isNone, pcA := 1 }
    | 1 =>
        if st.sawNoneA then
          { st with slot := some st.nextId, nextId := st.nextId + 1
                    constructions := st.constructions + 1, pcA := 2 }
        else { st with pcA := 2 }
    | _ => st
  else
    match st.pcB with
    | 0 => { st with sawNoneB := st.slot.isNone, pcB := 1 }
    | 1 =>
        if st.sawNoneB then
          { st with slot := some st.nextId, nextId := st.nextId + 1
                    constructions := st.constructions + 1, pcB := 2 }
        else { st with pcB := 2 }
    | _ => st

/-- Run a schedule from a state. -/
def runRace (sched : List Bool) (st : RaceState) : RaceState :=
  sched.foldl (fun s t => raceStep t s) st

/-! ### Helper lemmas -/

/-- Writing then reading the same variant slot yields the stored handle. -/
theorem slotOf_setSlot (v : ModelType) (m : Nat) (s : ModelManager) :
    slotOf v (setSlot v m s) = some m := by
  cases v <;> rfl

/-- With a successful provider outcome, `load_variant` always succeeds. -/
theorem load_variant_ok_exists (v : ModelType) (s : ModelManager) :
    ∃ m s1, load_variant (Except.ok ()) v s = Except.ok (m, s1) := by
  unfold load_variant
  cases slotOf v s <;> exact ⟨_, _, rfl⟩

/-! ### C3 — idempotence of get-or-load -/

/-- C3: for every variant, a second call to get-or-load after a
successful first call returns the identical model handle and leaves the
registry state unchanged (so no construction happens: the construction
counter in the state is untouched) — and this holds whatever the
provider outcome of the second call would have been, since the provider
is never consulted on a cache hit. -/
theorem load_variant_idempotent (o1 o2 : Except String Unit) (v : ModelType)
    (s s1 : ModelManager) (m : Nat)
    (h : load_variant o1 v s = Except.ok (m, s1)) :
    load_variant o2 v s1 = Except.ok (m, s1) := by
  unfold load_variant at h ⊢
  cases hs : slotOf v s with
  | some m0 =>
      rw [hs] at h
      simp only [Except.ok.injEq, Prod.mk.injEq] at h
      obtain ⟨hm, hs1⟩ := h
      subst hm
      subst hs1
      rw [hs]
  | none =>
      rw [hs] at h
      cases o1 with
      | error msg => simp at h
      | ok u =>
          simp only [Except.ok.injEq, Prod.mk.injEq] at h
          obtain ⟨hm, hs1⟩ := h
          subst hm
          subst hs1
          rw [slotOf_setSlot]

/-- Witness for C3 at a concrete input: loading turbo from the initial
state and then calling get-or-load again (even with a provider that
would now fail) returns the same handle 0 and the same state. -/
theorem load_variant_idempotent_witness :
    load_variant (Except.error "provider down") ModelType.turbo
        { turbo_model := some 0, multilingual_model := none, original_model := none
          nextId := 1, constructions := 1 }
      = Except.ok (0,
          { turbo_model := some 0, multilingual_model := none, original_model := none
            nextId := 1, constructions := 1 }) :=
  load_variant_idempotent (Except.ok ()) (Except.error "provider down") ModelType.turbo
    ModelManager.init _ 0 rfl

/-! ### C5 — concurrent first-time loads -/

/-- C5 counterexample: the registry has no lock, so in the interleaving
where both tasks run the `is None` check before either runs the
assignment (schedule A-check, B-check, A-assign, B-assign), both checks
see an empty slot and `from_pretrained` is executed twice — not exactly
once as the claim states. -/
theorem race_interleaved_double_construction :
    (runRace [true, false, true, false] raceInit).constructions = 2
    ∧ (runRace [true, false, true, false] raceInit).constructions ≠ 1 := by
  constructor
  · rfl
  · decide

/-- C5 amended: exactly one construction is guaranteed only when the two
first-time calls do not interleave — whenever either task runs its
check-then-assign body to completion before the other starts (which is
what the deployed single-threaded async event loop does, as the body
contains no await point), the second call sees the filled slot and does
not construct. -/
theorem race_serialized_single_construction (t : Bool) :
    (runRace [t, t, !t, !t] raceInit).constructions = 1 := by
  cases t <;> rfl

/-! ### C6 — device selection -/

/-- C6 counterexample: an explicitly configured empty-string device
preference (`CHATTERBOX_DEVICE=""` makes `settings.device = ""`, which
is set but falsy) is not returned verbatim: `if settings.device:` falls
through to probing, here returning "cuda". -/
theorem select_device_empty_pref_not_verbatim :
    select_device (some "") true false = "cuda"
    ∧ ("cuda" : String) ≠ "" := by
  constructor
  · rfl
  · decide

/-- C6 amended: a non-empty explicit preference is returned verbatim
with no validation; an empty-string preference is treated as unset;
without a (truthy) preference the probe order is CUDA, then MPS, then
CPU, returning the first available, so a device is always returned. -/
theorem select_device_spec (p : String) (c m : Bool) (hp : p ≠ "") :
    select_device (some p) c m = p
    ∧ select_device none c m = (if c then "cuda" else if m then "mps" else "cpu")
    ∧ select_device (some "") c m = select_device none c m := by
  refine ⟨?_, ?_, ?_⟩ <;> simp [select_device, hp]

/-- Witness for C6 amended at a concrete input: preference "cpu" is
returned even with both accelerators available. -/
theorem select_device_spec_witness :
    select_device (some "cpu") true true = "cpu" :=
  (select_device_spec "cpu" true true (by decide)).1

/-! ### C1 — text-length validation -/

/-- C1 counterexample: with `max_text_length` configured to 1, the
request text "Hi" (length 2) exceeds the limit, yet the `POST
/tts/turbo` endpoint — which performs no length validation at all —
answers 200 with the audio stream, after constructing and registering
the model: no ValidationError, and the model is accessed.  The same
holds for the other dedicated endpoints and for `/tts/with-voice`. -/
theorem turbo_endpoint_skips_length_check :
    ("Hi".length > 1)
    ∧ generate_tts_turbo (Except.ok ()) (Except.ok ()) "Hi" ModelManager.init
      = (Response.audio "turbo_output.wav",
         { turbo_model := some 0, multilingual_model := none, original_model := none
           nextId := 1, constructions := 1 },
         some { model := 0, text := "Hi", language_id := none, audio_prompt_path := none }) := by
  constructor
  · decide
  · rfl

/-- C1 amended: only the generic `POST /tts` endpoint validates text
length.  There, a request whose text exceeds `max_text_length` is
rejected before any model access (the registry state is returned
unchanged and `generate` is never invoked), but the rejection reaches
the client as HTTP 500 whose detail wraps the 400 message naming the
limit, because the endpoint blanket `except` re-raises every exception
— the explicitly raised `HTTPException(400, ...)` included — as a
500. -/
theorem generic_tts_rejects_long_text_before_model_access
    (maxLen : Nat) (lo go : Except String Unit) (req : TTSRequest) (s : ModelManager)
    (h : req.text.length > maxLen) :
    generate_tts maxLen lo go req s
      = (Response.error 500 ("400: " ++ text_too_long_detail maxLen), s, none) := by
  simp only [generate_tts, if_pos h, catchAll, excMessage]
  rfl

/-- Witness for C1 amended at a concrete input: `max_text_length = 1`,
text "Hi". -/
theorem generic_tts_rejects_long_text_witness :
    generate_tts 1 (Except.ok ()) (Except.ok ())
        { text := "Hi", model_type := ModelType.turbo, language_id := none } ModelManager.init
      = (Response.error 500 "400: Text too long. Maximum length is 1 characters.",
         ModelManager.init, none) := by
  have h := generic_tts_rejects_long_text_before_model_access 1 (Except.ok ()) (Except.ok ())
    { text := "Hi", model_type := ModelType.turbo, language_id := none }
    ModelManager.init (by decide)
  simpa [text_too_long_detail] using h

/-! ### C2 — temporary reference-audio cleanup -/

/-- C2 counterexample: if reading the uploaded voice file fails (e.g.
the client drops the connection mid-upload) after
`tempfile.NamedTemporaryFile(delete=False)` has already created the
file but before the `try`/`finally` block is entered, the exception is
caught by the blanket handler and the temporary file is left on the
filesystem: the third component of the result is `true`. -/
theorem with_voice_leaks_temp_on_read_failure :
    generate_tts_with_voice (Except.ok ()) (Except.error "client disconnected during upload")
        (Except.ok ()) "Hi" "turbo" none ModelManager.init
      = (Response.error 500 "client disconnected during upload",
         { turbo_model := some 0, multilingual_model := none, original_model := none
           nextId := 1, constructions := 1 },
         true, none) := by
  rfl

/-- C2 amended: the staged temporary file is deleted on every exit path
that passes the staging block — both on synthesis success and on
synthesis failure, thanks to the `try`/`finally` — and no file exists
on the paths that fail before staging (unknown model_type, load
failure); but a failure while reading or writing the upload payload,
after the file has been created and before the `try`/`finally` is
entered, leaves the file behind. -/
theorem with_voice_cleans_temp_when_staging_completes
    (lo go : Except String Unit) (text model_type : String) (lang : Option String)
    (s : ModelManager) :
    (generate_tts_with_voice lo (Except.ok ()) go text model_type lang s).2.2.1 = false := by
  unfold generate_tts_with_voice
  cases parse_model_type model_type with
  | none => rfl
  | some v =>
      cases h : load_variant lo v s with
      | error msg => simp [h]
      | ok p =>
          cases p with
          | mk m s1 => cases go <;> simp [h]

/-! ### C4 — unknown-variant rejection -/

/-- C4: evaluation at the failing input.  At the generic JSON endpoint
an unknown `model_type` is indeed rejected by schema validation (422)
before the handler body runs — registry untouched, no generate call —
but at `POST /tts/with-voice` the explicitly raised
`HTTPException(400, "Invalid model_type")` is caught by the endpoint
blanket `except Exception` and re-surfaced as HTTP 500 with detail
"400: Invalid model_type", not as the HTTP 400 the claim (and the
raise statement itself) intends. -/
theorem unknown_variant_dispatch_eval :
    tts_endpoint 5000 (Except.ok ()) (Except.ok ()) "Hi" "nonexistent" none ModelManager.init
      = (Response.error 422 "Input should be turbo, multilingual or original",
         ModelManager.init, none)
    ∧ generate_tts_with_voice (Except.ok ()) (Except.ok ()) (Except.ok ())
        "Hi" "nonexistent" none ModelManager.init
      = (Response.error 500 "400: Invalid model_type", ModelManager.init, false, none) := by
  constructor
  · decide
  · decide

/-! ### C7 — load failure leaves the registry clean -/

/-- C7: if `from_pretrained` fails during a first-time load at `POST
/tts` (empty slot for the requested variant, text within the limit),
the exception propagates to the endpoint boundary and is surfaced as
HTTP 500 carrying the underlying cause message; the registry state is
returned exactly as it was (the slot still empty, nothing poisoned) and
`generate` is never invoked; and a later identical request whose
provider outcome succeeds gets a 200 audio response. -/
theorem load_failure_clean_retry
    (maxLen : Nat) (req : TTSRequest) (s : ModelManager)
    (msg : String) (go : Except String Unit)
    (hslot : slotOf req.model_type s = none)
    (hlen : req.text.length ≤ maxLen) :
    generate_tts maxLen (Except.error msg) go req s = (Response.error 500 msg, s, none)
    ∧ (generate_tts maxLen (Except.ok ()) (Except.ok ()) req s).1
        = Response.audio "output.wav" := by
  have hnot : ¬ req.text.length > maxLen := Nat.not_lt.mpr hlen
  constructor
  · simp [generate_tts, hnot, load_variant, hslot, catchAll, excMessage]
  · simp [generate_tts, hnot, load_variant, hslot]

/-- Witness for C7 at a concrete input: turbo load fails with "weights
missing" from the initial state and the state comes back untouched; the
retry succeeds. -/
theorem load_failure_clean_retry_witness :
    generate_tts 5000 (Except.error "weights missing") (Except.ok ())
        { text := "Hi", model_type := ModelType.turbo, language_id := none } ModelManager.init
      = (Response.error 500 "weights missing", ModelManager.init, none)
    ∧ (generate_tts 5000 (Except.ok ()) (Except.ok ())
        { text := "Hi", model_type := ModelType.turbo, language_id := none }
        ModelManager.init).1
      = Response.audio "output.wav" :=
  load_failure_clean_retry 5000
    { text := "Hi", model_type := ModelType.turbo, language_id := none }
    ModelManager.init "weights missing" (Except.ok ()) rfl (by decide)

/-! ### C8 — language_id routing at the generic endpoint -/

/-- C8: at `POST /tts` (provider and engine succeeding, text within the
limit), `generate` receives the `language_id` keyword exactly when the
variant is multilingual and the request supplies a (truthy, i.e.
non-empty) `language_id`, in which case it receives the supplied value;
for every other combination — any non-multilingual variant in
particular — a supplied `language_id` is silently dropped.  Concretely,
the request with text "Bonjour", model_type multilingual and
language_id "fr" answers 200 and invokes `generate` with
`language_id="fr"`. -/
theorem generic_tts_language_id_policy
    (maxLen : Nat) (req : TTSRequest) (s : ModelManager)
    (hlen : req.text.length ≤ maxLen) :
    Option.map GenCall.language_id
        (generate_tts maxLen (Except.ok ()) (Except.ok ()) req s).2.2
      = some (if req.model_type = ModelType.multilingual ∧ pyTruthy req.language_id = true
              then req.language_id else none)
    ∧ generate_tts default_max_text_length (Except.ok ()) (Except.ok ())
        { text := "Bonjour", model_type := ModelType.multilingual, language_id := some "fr" }
        ModelManager.init
      = (Response.audio "output.wav",
         { turbo_model := none, multilingual_model := some 0, original_model := none
           nextId := 1, constructions := 1 },
         some { model := 0, text := "Bonjour", language_id := some "fr"
                audio_prompt_path := none }) := by
  constructor
  · have hnot : ¬ req.text.length > maxLen := Nat.not_lt.mpr hlen
    simp only [generate_tts, if_neg hnot]
    obtain ⟨m, s1, h⟩ := load_variant_ok_exists req.model_type s
    rw [h]
    by_cases hc : req.model_type = ModelType.multilingual ∧ pyTruthy req.language_id = true
    · simp [hc]
    · simp [hc]
  · decide

/-- Witness for C8 at a concrete input: a supplied language_id "fr" on
the original (non-multilingual) variant is dropped — `generate` is
called without the keyword. -/
theorem generic_tts_language_id_policy_witness :
    Option.map GenCall.language_id
        (generate_tts 5000 (Except.ok ()) (Except.ok ())
          { text := "Hello", model_type := ModelType.original, language_id := some "fr" }
          ModelManager.init).2.2
      = some none :=
  ((generic_tts_language_id_policy 5000
      { text := "Hello", model_type := ModelType.original, language_id := some "fr" }
      ModelManager.init (by decide)).1).trans (by decide)

/-! ### C9 — Content-Disposition filenames -/

/-- C9 counterexample: a successful `POST /tts/multilingual` response
carries the filename `multilingual_{language_id}_output.wav` — here
`multilingual_en_output.wav` — not `multilingual_output.wav` as the
claim states for every `POST /tts/{variant}`. -/
theorem multilingual_filename_includes_language :
    (generate_tts_multilingual (Except.ok ()) (Except.ok ()) "Hi" "en" ModelManager.init).1
      = Response.audio "multilingual_en_output.wav"
    ∧ Response.audio "multilingual_en_output.wav"
      ≠ Response.audio "multilingual_output.wav" := by
  constructor
  · rfl
  · decide

/-- C9 amended: on success, `POST /tts/turbo` and `POST /tts/original`
answer with filename `{variant}_output.wav`, `POST /tts/multilingual`
answers with `multilingual_{language_id}_output.wav`, and `POST
/tts/with-voice` answers with `{model_type}_custom_voice_output.wav`
for each of the three variants. -/
theorem success_filenames (text lang : String) (langOpt : Option String) (s : ModelManager) :
    (generate_tts_turbo (Except.ok ()) (Except.ok ()) text s).1
        = Response.audio "turbo_output.wav"
    ∧ (generate_tts_original (Except.ok ()) (Except.ok ()) text s).1
        = Response.audio "original_output.wav"
    ∧ (generate_tts_multilingual (Except.ok ()) (Except.ok ()) text lang s).1
        = Response.audio ("multilingual_" ++ lang ++ "_output.wav")
    ∧ (generate_tts_with_voice (Except.ok ()) (Except.ok ()) (Except.ok ())
          text "turbo" langOpt s).1
        = Response.audio "turbo_custom_voice_output.wav"
    ∧ (generate_tts_with_voice (Except.ok ()) (Except.ok ()) (Except.ok ())
          text "multilingual" langOpt s).1
        = Response.audio "multilingual_custom_voice_output.wav"
    ∧ (generate_tts_with_voice (Except.ok ()) (Except.ok ()) (Except.ok ())
          text "original" langOpt s).1
        = Response.audio "original_custom_voice_output.wav" := by
  obtain ⟨mt, st, ht⟩ := load_variant_ok_exists ModelType.turbo s
  obtain ⟨mo, so, ho⟩ := load_variant_ok_exists ModelType.original s
  obtain ⟨mm, sm, hm⟩ := load_variant_ok_exists ModelType.multilingual s
  refine ⟨?_, ?_, ?_, ?_, ?_, ?_⟩
  · simp [generate_tts_turbo, ht]
  · simp [generate_tts_original, ho]
  · simp [generate_tts_multilingual, hm]
  · simp [generate_tts_with_voice, parse_model_type, ht]
  · simp [generate_tts_with_voice, parse_model_type, hm]
  · simp [generate_tts_with_voice, parse_model_type, ho]

/-! ### C10 — empty language_id and the dedicated multilingual route -/

/-- C10: a present-but-empty `language_id` for the multilingual variant
is treated as absent at both `POST /tts` and `POST /tts/with-voice`
(the Python truthiness test drops `""` and `generate` is called without
the keyword), whereas `POST /tts/multilingual` always passes a
`language_id` — the form default "en" when the field is omitted — so
the generic route and the dedicated route invoke synthesis differently
for the same logical request (multilingual text with no language
given). -/
theorem empty_language_id_policy
    (maxLen : Nat) (text : String) (langField : Option String) (s : ModelManager)
    (hlen : text.length ≤ maxLen) :
    Option.map GenCall.language_id
        (generate_tts maxLen (Except.ok ()) (Except.ok ())
          { text := text, model_type := ModelType.multilingual, language_id := some "" }
          s).2.2
      = some none
    ∧ Option.map GenCall.language_id
        (generate_tts_with_voice (Except.ok ()) (Except.ok ()) (Except.ok ())
          text "multilingual" (some "") s).2.2.2
      = some none
    ∧ Option.map GenCall.language_id
        (generate_tts_multilingual (Except.ok ()) (Except.ok ())
          text (multilingual_form_language langField) s).2.2
      = some (some (multilingual_form_language langField))
    ∧ multilingual_form_language none = "en"
    ∧ Option.map GenCall.language_id
        (generate_tts_multilingual (Except.ok ()) (Except.ok ())
          text (multilingual_form_language none) s).2.2
      ≠ Option.map GenCall.language_id
          (generate_tts maxLen (Except.ok ()) (Except.ok ())
            { text := text, model_type := ModelType.multilingual, language_id := none }
            s).2.2 := by
  have hnot : ¬ text.length > maxLen := Nat.not_lt.mpr hlen
  obtain ⟨mm, sm, hm⟩ := load_variant_ok_exists ModelType.multilingual s
  refine ⟨?_, ?_, ?_, rfl, ?_⟩
  · simp only [generate_tts, if_neg hnot]
    rw [hm]
    simp [pyTruthy]
  · simp [generate_tts_with_voice, parse_model_type, hm, pyTruthy]
  · simp [generate_tts_multilingual, hm]
  · simp only [generate_tts, if_neg hnot, generate_tts_multilingual]
    rw [hm]
    simp [pyTruthy, multilingual_form_language]

/-- Witness for C10 at a concrete input: an empty language_id on a
multilingual request at `POST /tts` is dropped, while the dedicated
multilingual endpoint invokes synthesis differently for the logical
request with no language given. -/
theorem empty_language_id_policy_witness :
    Option.map GenCall.language_id
        (generate_tts 5000 (Except.ok ()) (Except.ok ())
          { text := "Hi", model_type := ModelType.multilingual, language_id := some "" }
          ModelManager.init).2.2
      = some none
    ∧ Option.map GenCall.language_id
        (generate_tts_multilingual (Except.ok ()) (Except.ok ())
          "Hi" (multilingual_form_language none) ModelManager.init).2.2
      ≠ Option.map GenCall.language_id
          (generate_tts 5000 (Except.ok ()) (Except.ok ())
            { text := "Hi", model_type := ModelType.multilingual, language_id := none }
            ModelManager.init).2.2 := by
  have h := empty_language_id_policy 5000 "Hi" none ModelManager.init (by decide)
  exact ⟨h.1, h.2.2.2.2⟩
